import Mathlib

/-!
Verification development for the `modelforge.curate` property-curation layer:
the `Property` / `Record` / `SourceDataset` data model, its append-merge
semantics, unit conversion, shape validation, and the dataset wrapper
operations, as described in the repository's design specification and
demonstrated in `modelforge/curate/examples/properties.ipynb`.
-/

namespace Modelforge

/-- Modelled from the spec: the physical dimension of a unit tag, used to
decide dimensional compatibility between a property's `units` and its fixed
`property_type` (the `modelforge.curate.properties` module is not among the
supplied sources; only the example notebook is). -/
inductive Dimension
  | dimensionless
  | length
  | energy
  | force
  | charge
  | dipole
deriving DecidableEq

/-- Modelled from the spec: a physical unit tag as used by
`openff.units`: a physical dimension plus a rational conversion factor into
a fixed base unit of that dimension.  Two units are convertible exactly when
their dimensions agree, and converting a value from `u` to `v` multiplies it
by `u.factor / v.factor`. -/
structure UnitT where
  dim : Dimension
  factor : ℚ
deriving DecidableEq

/-- The dimensionless unit (used for atomic numbers and metadata). -/
def dimensionless : UnitT := ⟨.dimensionless, 1⟩

/-- Nanometer, base unit of length in the model. -/
def nanometer : UnitT := ⟨.length, 1⟩

/-- Hartree, expressed in the model's base energy unit (kilojoule per mole):
1 hartree = 2625.4996394799 kJ/mol. -/
def hartree : UnitT := ⟨.energy, 26254996394799 / 10000000000⟩

/-- Kilocalories per mole: 1 kcal/mol = 4.184 kJ/mol. -/
def kilocalories_per_mole : UnitT := ⟨.energy, 4184 / 1000⟩

/-- Modelled from the spec: the classification of a property, deciding which
of the record's four mappings stores it and its shape semantics. -/
inductive PropertyClassification
  | atomic_numbers
  | per_atom
  | per_system
  | meta_data
deriving DecidableEq

/-- Modelled from the spec: the property type (length, energy, force, ...)
used solely to validate the declared `units`. -/
inductive PropertyType
  | atomic_numbers
  | length
  | energy
  | force
  | charge
  | dipole
  | meta_data
deriving DecidableEq

/-- The physical dimension a property type requires of its units. -/
def PropertyType.dimension : PropertyType → Dimension
  | .atomic_numbers => .dimensionless
  | .length => .length
  | .energy => .energy
  | .force => .force
  | .charge => .charge
  | .dipole => .dipole
  | .meta_data => .dimensionless

/-- A numeric n-dimensional array in row-major form: its shape (leading axis
first) and its flattened data.  The leading axis is the configuration axis
for per-atom and per-system properties. -/
structure NDArray where
  shape : List Nat
  data : List ℚ
deriving DecidableEq

/-- A property's value: a numeric array, or (for metadata) a plain string. -/
inductive PropValue
  | arr (a : NDArray)
  | str (s : String)
deriving DecidableEq

/-- Modelled from the spec: the fields shared by every property class
(`PropertyBaseClass` in `modelforge.curate.properties`, not among the
supplied sources): a name, a value, a unit tag, and the fixed
classification and property type. -/
structure Property where
  name : String
  value : PropValue
  units : UnitT
  classification : PropertyClassification
  property_type : PropertyType
deriving DecidableEq

/-- Modelled from the spec: the error conditions of the curate layer.  The
message text of the duplicate-property and shape-mismatch errors follows the
output shown in `properties.ipynb`. -/
inductive CurateError
  | unitMismatch (propName : String) (required got : Dimension)
  | duplicateProperty (propName recordName : String)
  | shapeMismatch (recordName propName : String) (incoming existing : Nat)
  | duplicateRecord (recordName : String)
  | unknownRecord (recordName : String)
deriving DecidableEq

/-- The user-facing message of an error, as printed in the notebook. -/
def CurateError.message : CurateError → String
  | .unitMismatch p _ _ =>
      "Units of " ++ p ++ " are not compatible with the property type."
  | .duplicateProperty p r =>
      "Property with name " ++ p ++ " already exists in the record " ++ r ++
      ".Set append_property=True to append to the existing property."
  | .shapeMismatch r p a b =>
      r ++ ": n_atoms of " ++ p ++ " does not: " ++ toString a ++ " != " ++
      toString b ++ "."
  | .duplicateRecord r =>
      "Record with name " ++ r ++ " already exists in the dataset."
  | .unknownRecord r =>
      "Record with name " ++ r ++ " does not exist in the dataset."

/-- Modelled from the spec: property construction
(`PropertyBaseClass.__init__`) validates that the supplied units are
dimensionally compatible with the property kind's fixed `property_type`,
failing with `UnitMismatch` otherwise. -/
def mkProperty (c : PropertyClassification) (t : PropertyType) (n : String)
    (v : PropValue) (u : UnitT) : Except CurateError Property :=
  if u.dim = t.dimension then
    .ok ⟨n, v, u, c, t⟩
  else
    .error (.unitMismatch n t.dimension u.dim)

/-- Association-list lookup keyed by name. -/
def getAssoc {β : Type} (k : String) : List (String × β) → Option β
  | [] => none
  | (k2, v) :: rest => if k2 = k then some v else getAssoc k rest

/-- Association-list insert-or-replace keyed by name. -/
def setAssoc {β : Type} (k : String) (v : β) :
    List (String × β) → List (String × β)
  | [] => [(k, v)]
  | (k2, v2) :: rest =>
    if k2 = k then (k2, v) :: rest else (k2, v2) :: setAssoc k v rest

theorem getAssoc_setAssoc_self {β : Type} (k : String) (v : β)
    (l : List (String × β)) : getAssoc k (setAssoc k v l) = some v := by
  induction l with
  | nil => simp [getAssoc, setAssoc]
  | cons hd tl ih =>
    by_cases h : hd.1 = k
    · simp [getAssoc, setAssoc, h]
    · simp [getAssoc, setAssoc, h, ih]

theorem setAssoc_setAssoc_self {β : Type} (k : String) (v w : β)
    (l : List (String × β)) :
    setAssoc k v (setAssoc k w l) = setAssoc k v l := by
  induction l with
  | nil => simp [setAssoc]
  | cons hd tl ih =>
    by_cases h : hd.1 = k
    · simp [setAssoc, h]
    · simp [setAssoc, h, ih]

/-- Modelled from the spec: a `Record` is a named collection of properties,
held in four mappings keyed by property name, with the `append_property`
flag fixed at construction (the `modelforge.curate.record` module is not
among the supplied sources). -/
structure Record where
  name : String
  append_property : Bool
  atomic_numbers : List (String × Property)
  per_atom : List (String × Property)
  per_system : List (String × Property)
  meta_data : List (String × Property)
deriving DecidableEq

/-- An empty record, as produced by `Record(name)` or
`SourceDataset.create_record`. -/
def Record.make (n : String) (append : Bool) : Record :=
  ⟨n, append, [], [], [], []⟩

/-- The mapping of a record that holds properties of a given
classification. -/
def Record.mapping (r : Record) : PropertyClassification →
    List (String × Property)
  | .atomic_numbers => r.atomic_numbers
  | .per_atom => r.per_atom
  | .per_system => r.per_system
  | .meta_data => r.meta_data

/-- Replace the mapping of a record for a given classification. -/
def Record.setMapping (r : Record) :
    PropertyClassification → List (String × Property) → Record
  | .atomic_numbers, m => { r with atomic_numbers := m }
  | .per_atom, m => { r with per_atom := m }
  | .per_system, m => { r with per_system := m }
  | .meta_data, m => { r with meta_data := m }

/-- The first pair of differing sizes between two shape tails (the
non-leading dimensions of the incoming and the stored array), reported by
the shape-mismatch error.  A rank mismatch reports the extra size against
zero. -/
def firstMismatch : List Nat → List Nat → Option (Nat × Nat)
  | [], [] => none
  | a :: as, b :: bs => if a = b then firstMismatch as bs else some (a, b)
  | a :: _, [] => some (a, 0)
  | [], b :: _ => some (0, b)

/-- Concatenate an incoming array onto a stored array along the leading
(configuration) axis, scaling the incoming data by the unit-conversion
factor. -/
def appendValue (existing incoming : NDArray) (scale : ℚ) : NDArray :=
  ⟨(existing.shape.headD 0 + incoming.shape.headD 0) :: existing.shape.tail,
   existing.data ++ incoming.data.map (fun q => q * scale)⟩

/-- Modelled from the spec: `Record.add_property` (the
`modelforge.curate.record` module is not among the supplied sources).  A new
name is inserted into the classification's mapping.  A duplicate name fails
with `DuplicatePropertyError` unless append mode is active (the record's
`append_property` flag, or the explicit override when supplied).  In append
mode, metadata is replaced, a duplicate `atomic_numbers` still fails, and
per-atom/per-system arrays are appended after validating that the
non-leading dimensions match (`ShapeMismatchError` otherwise) and converting
the incoming value to the stored units (`UnitMismatch` if the dimensions
differ).  Error cases leave the record unchanged. -/
def Record.addProperty (r : Record) (p : Property) (override : Option Bool) :
    Record × Option CurateError :=
  let m := r.mapping p.classification
  match getAssoc p.name m with
  | none => (r.setMapping p.classification (setAssoc p.name p m), none)
  | some existing =>
    let appendOn := match override with
      | some b => b
      | none => r.append_property
    if appendOn then
      match p.classification with
      | .meta_data =>
        (r.setMapping .meta_data (setAssoc p.name p m), none)
      | .atomic_numbers =>
        (r, some (.duplicateProperty p.name r.name))
      | _ =>
        match existing.value, p.value with
        | .arr ea, .arr pa =>
          match firstMismatch pa.shape.tail ea.shape.tail with
          | some (a, b) => (r, some (.shapeMismatch r.name p.name a b))
          | none =>
            if p.units.dim = existing.units.dim then
              (r.setMapping p.classification
                 (setAssoc p.name
                   { existing with
                     value := .arr (appendValue ea pa
                       (p.units.factor / existing.units.factor)) } m),
               none)
            else
              (r, some (.unitMismatch p.name existing.units.dim p.units.dim))
        | _, _ => (r, some (.shapeMismatch r.name p.name 0 0))
    else
      (r, some (.duplicateProperty p.name r.name))

/-- Modelled from the spec: `Record.add_properties` applies `add_property`
to each element in order, stopping at the first failure; properties added
before the failure stay committed. -/
def Record.addProperties (r : Record) :
    List Property → Record × Option CurateError
  | [] => (r, none)
  | p :: ps =>
    match r.addProperty p none with
    | (r2, none) => r2.addProperties ps
    | (r2, some e) => (r2, some e)

/-- The configuration count reported by a stored property: the leading
dimension of its array value. -/
def leadingDim (p : Property) : Nat :=
  match p.value with
  | .arr a => a.shape.headD 0
  | .str _ => 0

/-- The `(property name, n_configs)` pairs of every per-atom and per-system
property of a record, in storage order. -/
def configCounts (r : Record) : List (String × Nat) :=
  (r.per_atom ++ r.per_system).map (fun kv => (kv.1, leadingDim kv.2))

/-- Whether all reported configuration counts agree. -/
def allEqualCounts : List (String × Nat) → Bool
  | [] => true
  | (_, n) :: rest => rest.all (fun kv => kv.2 == n)

/-- Modelled from the spec: `Record.validate` recomputes `n_configs` for
every per-atom and per-system property; when they disagree it returns
`false` together with one warning per property (the property name and its
observed count, as logged by `_validate_n_configs` in the notebook output);
it returns `true` with no warnings when they are consistent.  It never
mutates the record. -/
def Record.validate (r : Record) : Bool × List (String × Nat) :=
  let counts := configCounts r
  if allEqualCounts counts then (true, []) else (false, counts)

/-- The on-disk content of a backing store: the names of the records
persisted in it (empty for a freshly created store). -/
def StoreContent : Type := List String
deriving instance DecidableEq for StoreContent

/-- The file system visible to the dataset: store contents keyed by path. -/
structure FileSystem where
  files : List (String × StoreContent)

/-- Modelled from the spec: a `SourceDataset` is a named collection of
uniquely named records with an `append_property` setting inherited by
records it creates, optionally bound to a backing-store path (the
`modelforge.curate.sourcedataset` module is not among the supplied
sources). -/
structure SourceDataset where
  name : String
  append_property : Bool
  records : List (String × Record)
  storeLocation : Option String

/-- Modelled from the spec: `SourceDataset.__init__` with a backing-store
path.  If a store file already exists at the target location it is deleted
and a fresh empty store is created in its place (the documented
data-loss-on-reinit behavior, logged in the notebook as "Database file ...
already exists ... Removing it."). -/
def SourceDataset.make (n : String) (append : Bool) (path : String)
    (fs : FileSystem) : SourceDataset × FileSystem :=
  (⟨n, append, [], some path⟩,
   ⟨setAssoc path ([] : StoreContent) fs.files⟩)

/-- Modelled from the spec: `SourceDataset.create_record` fails with
`DuplicateRecordError` when the name exists, and otherwise creates an empty
record inheriting the dataset's `append_property` setting. -/
def SourceDataset.create_record (ds : SourceDataset) (n : String) :
    SourceDataset × Option CurateError :=
  match getAssoc n ds.records with
  | some _ => (ds, some (.duplicateRecord n))
  | none =>
    ({ ds with records :=
        setAssoc n (Record.make n ds.append_property) ds.records }, none)

/-- Modelled from the spec: `SourceDataset.add_record` inserts a fully
constructed record, failing with `DuplicateRecordError` on a name
collision. -/
def SourceDataset.add_record (ds : SourceDataset) (r : Record) :
    SourceDataset × Option CurateError :=
  match getAssoc r.name ds.records with
  | some _ => (ds, some (.duplicateRecord r.name))
  | none => ({ ds with records := setAssoc r.name r ds.records }, none)

/-- Modelled from the spec: `SourceDataset.add_properties` looks up the
named record (failing with `UnknownRecordError` when absent) and delegates
to `Record.add_properties` on it, storing back the resulting record. -/
def SourceDataset.add_properties (ds : SourceDataset) (n : String)
    (ps : List Property) : SourceDataset × Option CurateError :=
  match getAssoc n ds.records with
  | none => (ds, some (.unknownRecord n))
  | some r =>
    match r.addProperties ps with
    | (r2, e) => ({ ds with records := setAssoc n r2 ds.records }, e)

theorem firstMismatch_self (l : List Nat) : firstMismatch l l = none := by
  induction l with
  | nil => rfl
  | cons a as ih => simp [firstMismatch, ih]

theorem mapping_setMapping (r : Record) (c : PropertyClassification)
    (m : List (String × Property)) : (r.setMapping c m).mapping c = m := by
  cases c <;> rfl

theorem setMapping_name (r : Record) (c : PropertyClassification)
    (m : List (String × Property)) : (r.setMapping c m).name = r.name := by
  cases c <;> rfl

theorem addProperty_err_fst (r : Record) (p : Property) (ov : Option Bool)
    (e : CurateError) (h : (r.addProperty p ov).2 = some e) :
    (r.addProperty p ov).1 = r := by
  rcases hres : r.addProperty p ov with ⟨r1, e1⟩
  rw [hres] at h
  simp only at h
  subst h
  show r1 = r
  simp only [Record.addProperty] at hres
  rcases hget : getAssoc p.name (r.mapping p.classification) with _ | existing <;>
    simp only [hget] at hres
  · simp at hres
  · repeat' split at hres
    all_goals simp_all

theorem addProperty_fst_name (r : Record) (p : Property) (ov : Option Bool) :
    ((r.addProperty p ov).1).name = r.name := by
  simp only [Record.addProperty]
  rcases hget : getAssoc p.name (r.mapping p.classification) with _ | existing <;>
    simp only [hget]
  · simp [setMapping_name]
  · repeat' split
    all_goals simp [setMapping_name]

theorem addProperties_fst_name (r : Record) (ps : List Property) :
    ((r.addProperties ps).1).name = r.name := by
  induction ps generalizing r with
  | nil => rfl
  | cons p ps ih =>
    rcases hres : r.addProperty p none with ⟨r1, e1⟩
    have hn : r1.name = r.name := by
      have := addProperty_fst_name r p none
      rw [hres] at this
      exact this
    cases e1 with
    | none => simp [Record.addProperties, hres, ih r1, hn]
    | some e => simp [Record.addProperties, hres, hn]

theorem addProperty_append_eq (r : Record) (p existing : Property)
    (ea pa : NDArray)
    (happ : r.append_property = true)
    (hcls : p.classification = .per_atom ∨ p.classification = .per_system)
    (hlook : getAssoc p.name (r.mapping p.classification) = some existing)
    (hev : existing.value = .arr ea) (hpv : p.value = .arr pa)
    (hshape : pa.shape.tail = ea.shape.tail)
    (hdim : p.units.dim = existing.units.dim) :
    r.addProperty p none =
      (r.setMapping p.classification
        (setAssoc p.name
          { existing with value := .arr (appendValue ea pa
              (p.units.factor / existing.units.factor)) }
          (r.mapping p.classification)), none) := by
  obtain ⟨pn, pv, pu, pc, pt⟩ := p
  obtain ⟨en, ev, eu, ec, et⟩ := existing
  simp only at hlook hev hpv hdim ⊢
  subst hev hpv
  rcases hcls with hc | hc <;> simp only at hc <;> subst hc <;>
    simp [Record.addProperty, hlook, happ, hshape, firstMismatch_self, hdim]

/-- C2: for every record whose `append_property` flag is not set and with no
explicit override, adding a property whose name already exists fails with
`DuplicatePropertyError`, whose message names the property and the record
and instructs the caller to enable append mode. -/
theorem duplicate_without_append_fails (r : Record) (p existing : Property)
    (happ : r.append_property = false)
    (hlook : getAssoc p.name (r.mapping p.classification) = some existing) :
    r.addProperty p none = (r, some (.duplicateProperty p.name r.name)) ∧
    (CurateError.duplicateProperty p.name r.name).message =
      "Property with name " ++ p.name ++ " already exists in the record " ++
      r.name ++
      ".Set append_property=True to append to the existing property." := by
  refine ⟨?_, rfl⟩
  simp only [Record.addProperty, hlook, happ]
  simp

/-- C3: for every record in append mode, appending a per-atom (or
per-system) property whose non-leading dimensions differ from the stored
array fails with a shape-mismatch error carrying the record name, the
property name, and the two conflicting sizes. -/
theorem append_shape_mismatch_fails (r : Record) (p existing : Property)
    (ea pa : NDArray) (a b : Nat)
    (happ : r.append_property = true)
    (hcls : p.classification = .per_atom ∨ p.classification = .per_system)
    (hlook : getAssoc p.name (r.mapping p.classification) = some existing)
    (hev : existing.value = .arr ea) (hpv : p.value = .arr pa)
    (hmm : firstMismatch pa.shape.tail ea.shape.tail = some (a, b)) :
    r.addProperty p none = (r, some (.shapeMismatch r.name p.name a b)) := by
  obtain ⟨pn, pv, pu, pc, pt⟩ := p
  obtain ⟨en, ev, eu, ec, et⟩ := existing
  simp only at hlook hev hpv ⊢
  subst hev hpv
  rcases hcls with hc | hc <;> simp only at hc <;> subst hc <;>
    simp [Record.addProperty, hlook, happ, hmm]

/-- C6: constructing a property whose declared `property_type` requires a
dimension different from that of the supplied units fails with
`UnitMismatch`; construction succeeds exactly when the dimensions agree. -/
theorem property_units_dimension_check (c : PropertyClassification)
    (t : PropertyType) (n : String) (v : PropValue) (u : UnitT) :
    (u.dim ≠ t.dimension →
      mkProperty c t n v u = .error (.unitMismatch n t.dimension u.dim)) ∧
    (u.dim = t.dimension → mkProperty c t n v u = .ok ⟨n, v, u, c, t⟩) := by
  constructor <;> intro h <;> simp [mkProperty, h]

/-- C7: constructing a `SourceDataset` with a backing store when a store
already exists at the target location deletes the preexisting store and
recreates it empty: the old content is not reused. -/
theorem store_deleted_on_reinit (fs : FileSystem) (path n : String)
    (append : Bool) (c : StoreContent)
    (hex : getAssoc path fs.files = some c) :
    getAssoc path (((SourceDataset.make n append path fs).2).files)
      = some ([] : StoreContent) ∧
    ((SourceDataset.make n append path fs).1).records = [] := by
  exact ⟨getAssoc_setAssoc_self path ([] : StoreContent) fs.files, rfl⟩

/-- C10: when a single `add_property` call fails (for example a duplicate
name without append mode, or a shape mismatch on append), the record is
unchanged by that call: every stored property keeps its value, units and
shape. -/
theorem failed_add_property_leaves_record_unchanged (r : Record)
    (p : Property) (ov : Option Bool) (e : CurateError)
    (h : (r.addProperty p ov).2 = some e) :
    (r.addProperty p ov).1 = r :=
  addProperty_err_fst r p ov e h

/-- C1: for every record with `append_property` enabled, adding a property
whose name already exists and whose non-leading dimensions match the stored
array concatenates along the leading (configuration) axis: the stored
value's configuration-axis length becomes the sum of the two additions'
configuration counts, and the non-leading dimensions are unchanged. -/
theorem append_concatenates_config_axis (r : Record) (p existing : Property)
    (ea pa : NDArray)
    (happ : r.append_property = true)
    (hcls : p.classification = .per_atom ∨ p.classification = .per_system)
    (hlook : getAssoc p.name (r.mapping p.classification) = some existing)
    (hev : existing.value = .arr ea) (hpv : p.value = .arr pa)
    (hshape : pa.shape.tail = ea.shape.tail)
    (hdim : p.units.dim = existing.units.dim) :
    ∃ a' : NDArray,
      (r.addProperty p none).2 = none ∧
      getAssoc p.name (((r.addProperty p none).1).mapping p.classification)
        = some { existing with value := .arr a' } ∧
      a'.shape.headD 0 = ea.shape.headD 0 + pa.shape.headD 0 ∧
      a'.shape.tail = ea.shape.tail := by
  refine ⟨appendValue ea pa (p.units.factor / existing.units.factor),
    ?_, ?_, rfl, rfl⟩ <;>
    rw [addProperty_append_eq r p existing ea pa happ hcls hlook hev hpv
      hshape hdim]
  rw [mapping_setMapping, getAssoc_setAssoc_self]

/-- C4: for every record in append mode, appending a property whose units
differ from but are dimensionally convertible to the stored property's
units converts the incoming value to the stored (first-seen) units before
concatenation — each incoming entry is scaled by the conversion factor of
the incoming units into the stored units — and the stored units tag is
unchanged. -/
theorem append_converts_to_stored_units (r : Record) (p existing : Property)
    (ea pa : NDArray)
    (happ : r.append_property = true)
    (hcls : p.classification = .per_atom ∨ p.classification = .per_system)
    (hlook : getAssoc p.name (r.mapping p.classification) = some existing)
    (hev : existing.value = .arr ea) (hpv : p.value = .arr pa)
    (hshape : pa.shape.tail = ea.shape.tail)
    (hne : p.units ≠ existing.units)
    (hdim : p.units.dim = existing.units.dim) :
    ∃ q : Property,
      (r.addProperty p none).2 = none ∧
      getAssoc p.name (((r.addProperty p none).1).mapping p.classification)
        = some q ∧
      q.units = existing.units ∧
      q.value = .arr ⟨(ea.shape.headD 0 + pa.shape.headD 0) :: ea.shape.tail,
        ea.data ++ pa.data.map
          (fun x => x * (p.units.factor / existing.units.factor))⟩ := by
  refine ⟨{ existing with value := .arr (appendValue ea pa
      (p.units.factor / existing.units.factor)) }, ?_, ?_, rfl, rfl⟩ <;>
    rw [addProperty_append_eq r p existing ea pa happ hcls hlook hev hpv
      hshape hdim]
  rw [mapping_setMapping, getAssoc_setAssoc_self]

theorem allEqualCounts_iff (l : List (String × Nat)) :
    allEqualCounts l = true ↔ ∀ x ∈ l, ∀ y ∈ l, x.2 = y.2 := by
  cases l with
  | nil => simp [allEqualCounts]
  | cons hd tl =>
    obtain ⟨k, n⟩ := hd
    simp only [allEqualCounts, List.all_eq_true, beq_iff_eq]
    constructor
    · intro h
      have key : ∀ z, z ∈ (k, n) :: tl → z.2 = n := by
        intro z hz
        rcases List.mem_cons.mp hz with rfl | hz
        · rfl
        · exact h z hz
      intro x hx y hy
      rw [key x hx, key y hy]
    · intro h x hx
      exact h x (List.mem_cons_of_mem _ hx) (k, n) (List.mem_cons_self _ _)

/-- C5: `validate` reports `true` exactly when every per-atom and
per-system property of the record reports the same configuration count;
otherwise it reports `false` together with one warning (the property name
and its observed count) per per-atom/per-system property.  It is a pure
observation of the record and stores nothing back. -/
theorem validate_iff_consistent_counts (r : Record) :
    ((r.validate).1 = true ↔
      ∀ x ∈ configCounts r, ∀ y ∈ configCounts r, x.2 = y.2) ∧
    ((r.validate).1 = false → (r.validate).2 = configCounts r) ∧
    ((r.validate).1 = true → (r.validate).2 = []) := by
  by_cases h : allEqualCounts (configCounts r) = true
  · have hv : r.validate = (true, []) := by
      simp [Record.validate, h]
    rw [hv]
    exact ⟨⟨fun _ => (allEqualCounts_iff (configCounts r)).mp h,
        fun _ => rfl⟩,
      fun hf => Bool.noConfusion hf, fun _ => rfl⟩
  · have hv : r.validate = (false, configCounts r) := by
      simp [Record.validate, h]
    rw [hv]
    exact ⟨⟨fun ht => Bool.noConfusion ht,
        fun hall =>
          absurd ((allEqualCounts_iff (configCounts r)).mpr hall) h⟩,
      fun _ => rfl, fun ht => Bool.noConfusion ht⟩

/-- C8: `add_properties` applies `add_property` to each element in list
order; when an element fails, everything added before it stays committed:
the resulting record is exactly the record obtained from the successful
prefix, and the failing element's error is reported (no transactional
rollback). -/
theorem add_properties_partial_failure_commits (r : Record)
    (ps qs : List Property) (p : Property) (r' : Record) (e : CurateError)
    (hok : r.addProperties ps = (r', none))
    (hfail : (r'.addProperty p none).2 = some e) :
    r.addProperties (ps ++ p :: qs) = (r', some e) := by
  induction ps generalizing r with
  | nil =>
    have hr : r' = r := by
      have := hok
      simp [Record.addProperties] at this
      exact this.symm
    subst hr
    rcases hp : r'.addProperty p none with ⟨r2, e2⟩
    rw [hp] at hfail
    simp only at hfail
    subst hfail
    have h2 : r2 = r' := by
      have := addProperty_err_fst r' p none e (by rw [hp])
      rw [hp] at this
      exact this
    subst h2
    simp [Record.addProperties, hp]
  | cons a as ih =>
    rcases ha : r.addProperty a none with ⟨r2, e2⟩
    cases e2 with
    | none =>
      have hok2 : r2.addProperties as = (r', none) := by
        have := hok
        simp only [Record.addProperties, ha] at this
        exact this
      have := ih r2 hok2
      simp only [List.cons_append, Record.addProperties, ha]
      exact this
    | some e' =>
      exfalso
      have := hok
      simp only [Record.addProperties, ha] at this
      exact Option.noConfusion (congrArg Prod.snd this)

/-- C9: populating a dataset by building a record externally
(`Record.add_properties` then `SourceDataset.add_record`) produces the same
dataset state as `create_record` followed by the dataset-level
`add_properties`, which looks up the named record — failing with
`UnknownRecordError` when it is absent — and delegates to
`Record.add_properties` on a record inheriting the dataset's
`append_property` setting. -/
theorem dataset_add_properties_equivalent (ds : SourceDataset) (n : String)
    (ps : List Property) (r' : Record)
    (hfresh : getAssoc n ds.records = none)
    (hrun : (Record.make n ds.append_property).addProperties ps
      = (r', none)) :
    (ds.add_record r').1 =
      (((ds.create_record n).1).add_properties n ps).1 ∧
    (ds.add_record r').2 = none ∧
    (((ds.create_record n).1).add_properties n ps).2 = none ∧
    (∀ (ds2 : SourceDataset) (m : String) (qs : List Property),
      getAssoc m ds2.records = none →
      ds2.add_properties m qs = (ds2, some (.unknownRecord m))) := by
  have hname : r'.name = n := by
    have := addProperties_fst_name (Record.make n ds.append_property) ps
    rw [hrun] at this
    exact this
  have hcr : (ds.create_record n).1 =
      { ds with records :=
          setAssoc n (Record.make n ds.append_property) ds.records } := by
    simp [SourceDataset.create_record, hfresh]
  have hget2 : getAssoc n
      (setAssoc n (Record.make n ds.append_property) ds.records)
      = some (Record.make n ds.append_property) :=
    getAssoc_setAssoc_self n _ ds.records
  have hap : (((ds.create_record n).1).add_properties n ps) =
      ({ ds with records := setAssoc n r' ds.records }, none) := by
    rw [hcr]
    simp only [SourceDataset.add_properties, hget2, hrun,
      setAssoc_setAssoc_self]
  have har : ds.add_record r' =
      ({ ds with records := setAssoc n r' ds.records }, none) := by
    simp only [SourceDataset.add_record, hname, hfresh]
  refine ⟨?_, ?_, ?_, ?_⟩
  · rw [har, hap]
  · rw [har]
  · rw [hap]
  · intro ds2 m qs hm
    simp [SourceDataset.add_properties, hm]

/-- One energy value for one configuration, stored in hartree. -/
def energyOneHartree : Property :=
  ⟨"total_energies", .arr ⟨[1, 1], [1]⟩, hartree, .per_system, .energy⟩

/-- One energy value for one configuration, stored in kcal/mol. -/
def energyOneKcal : Property :=
  ⟨"total_energies", .arr ⟨[1, 1], [1]⟩, kilocalories_per_mole, .per_system,
    .energy⟩

/-- Positions for two configurations of a two-atom system. -/
def positionsTwoAtoms : Property :=
  ⟨"positions", .arr ⟨[2, 2, 3], [1, 1, 1, 2, 2, 2, 1, 1, 1, 2, 2, 2]⟩,
    nanometer, .per_atom, .length⟩

/-- Positions for one configuration of a three-atom system. -/
def positionsThreeAtoms : Property :=
  ⟨"positions", .arr ⟨[1, 3, 3], [1, 1, 1, 2, 2, 2, 3, 3, 3]⟩, nanometer,
    .per_atom, .length⟩

/-- A record in append mode holding positions (two configurations) and
energies (one configuration), as in the notebook's appending examples. -/
def molAppend : Record :=
  ⟨"mol1", true, [], [("positions", positionsTwoAtoms)],
    [("total_energies", energyOneHartree)], []⟩

/-- A record with `append_property` off holding one energy property. -/
def molNoAppend : Record :=
  ⟨"mol1", false, [], [], [("total_energies", energyOneHartree)], []⟩

/-- Two energy values for two configurations, stored in hartree. -/
def energyTwoConfigs : Property :=
  ⟨"total_energies", .arr ⟨[2, 1], [1, 1]⟩, hartree, .per_system, .energy⟩

/-- A record whose per-atom and per-system properties agree on two
configurations. -/
def molConsistent : Record :=
  ⟨"mol1", true, [], [("positions", positionsTwoAtoms)],
    [("total_energies", energyTwoConfigs)], []⟩

/-- A file system holding a preexisting store with one persisted record. -/
def fsWithStore : FileSystem :=
  ⟨[("test_dataset.sqlite", ["mol_old"])]⟩

/-- An empty dataset with no backing store and append mode off. -/
def emptyDataset : SourceDataset := ⟨"test_dataset", false, [], none⟩

/-- The record produced by adding one energy property to a fresh record
named mol2. -/
def molTwo : Record :=
  ⟨"mol2", false, [], [], [("total_energies", energyOneHartree)], []⟩

theorem append_concatenates_config_axis_witness :
    ∃ a' : NDArray,
      (molAppend.addProperty energyOneHartree none).2 = none ∧
      getAssoc "total_energies"
        (((molAppend.addProperty energyOneHartree none).1).mapping
          .per_system) = some { energyOneHartree with value := .arr a' } ∧
      a'.shape.headD 0 = 1 + 1 ∧
      a'.shape.tail = [1] :=
  append_concatenates_config_axis molAppend energyOneHartree energyOneHartree
    ⟨[1, 1], [1]⟩ ⟨[1, 1], [1]⟩ rfl (Or.inr rfl) rfl rfl rfl rfl rfl

theorem duplicate_without_append_fails_witness :
    molNoAppend.addProperty energyOneHartree none =
      (molNoAppend, some (.duplicateProperty "total_energies" "mol1")) ∧
    (CurateError.duplicateProperty "total_energies" "mol1").message =
      "Property with name " ++ "total_energies" ++
      " already exists in the record " ++ "mol1" ++
      ".Set append_property=True to append to the existing property." :=
  duplicate_without_append_fails molNoAppend energyOneHartree
    energyOneHartree rfl rfl

theorem append_shape_mismatch_fails_witness :
    molAppend.addProperty positionsThreeAtoms none =
      (molAppend, some (.shapeMismatch "mol1" "positions" 3 2)) :=
  append_shape_mismatch_fails molAppend positionsThreeAtoms
    positionsTwoAtoms ⟨[2, 2, 3], [1, 1, 1, 2, 2, 2, 1, 1, 1, 2, 2, 2]⟩
    ⟨[1, 3, 3], [1, 1, 1, 2, 2, 2, 3, 3, 3]⟩ 3 2 rfl (Or.inl rfl)
    rfl rfl rfl (by decide)

theorem append_converts_to_stored_units_witness :
    (∃ q : Property,
      (molAppend.addProperty energyOneKcal none).2 = none ∧
      getAssoc "total_energies"
        (((molAppend.addProperty energyOneKcal none).1).mapping
          .per_system) = some q ∧
      q.units = hartree ∧
      q.value = .arr ⟨[2, 1],
        [1, 1 * (kilocalories_per_mole.factor / hartree.factor)]⟩) ∧
    |kilocalories_per_mole.factor / hartree.factor - 15936 / 10000000|
      < 1 / 1000000 :=
  ⟨append_converts_to_stored_units molAppend energyOneKcal energyOneHartree
      ⟨[1, 1], [1]⟩ ⟨[1, 1], [1]⟩ rfl (Or.inr rfl) rfl rfl rfl rfl
      (by
        intro h
        have hf := congrArg UnitT.factor h
        simp only [energyOneKcal, energyOneHartree, kilocalories_per_mole,
          hartree] at hf
        norm_num at hf) rfl,
   by norm_num [kilocalories_per_mole, hartree, abs_lt]⟩

theorem validate_iff_consistent_counts_witness :
    (molAppend.validate).2 = configCounts molAppend ∧
    (molConsistent.validate).1 = true :=
  ⟨(validate_iff_consistent_counts molAppend).2.1 (by decide),
   (validate_iff_consistent_counts molConsistent).1.mpr (by decide)⟩

theorem property_units_dimension_check_witness :
    mkProperty .per_system .energy "total_energies" (.arr ⟨[1, 1], [1]⟩)
      nanometer = .error (.unitMismatch "total_energies" .energy .length) ∧
    mkProperty .per_system .energy "total_energies" (.arr ⟨[1, 1], [1]⟩)
      hartree = .ok ⟨"total_energies", .arr ⟨[1, 1], [1]⟩, hartree,
        .per_system, .energy⟩ :=
  ⟨(property_units_dimension_check .per_system .energy "total_energies"
      (.arr ⟨[1, 1], [1]⟩) nanometer).1 (by decide),
   (property_units_dimension_check .per_system .energy "total_energies"
      (.arr ⟨[1, 1], [1]⟩) hartree).2 rfl⟩

theorem store_deleted_on_reinit_witness :
    getAssoc "test_dataset.sqlite"
      (((SourceDataset.make "test_dataset" false "test_dataset.sqlite"
        fsWithStore).2).files) = some ([] : StoreContent) ∧
    ((SourceDataset.make "test_dataset" false "test_dataset.sqlite"
      fsWithStore).1).records = [] :=
  store_deleted_on_reinit fsWithStore "test_dataset.sqlite" "test_dataset"
    false ["mol_old"] (by decide)

theorem add_properties_partial_failure_commits_witness :
    (Record.make "mol1" false).addProperties
      [energyOneHartree, energyOneHartree, positionsTwoAtoms] =
      (molNoAppend, some (.duplicateProperty "total_energies" "mol1")) :=
  add_properties_partial_failure_commits (Record.make "mol1" false)
    [energyOneHartree] [positionsTwoAtoms] energyOneHartree molNoAppend
    (.duplicateProperty "total_energies" "mol1") rfl rfl

theorem dataset_add_properties_equivalent_witness :
    (emptyDataset.add_record molTwo).1 =
      (((emptyDataset.create_record "mol2").1).add_properties "mol2"
        [energyOneHartree]).1 ∧
    (((emptyDataset.create_record "mol2").1).add_properties "mol2"
      [energyOneHartree]).2 = none :=
  ⟨(dataset_add_properties_equivalent emptyDataset "mol2" [energyOneHartree]
      molTwo rfl rfl).1,
   (dataset_add_properties_equivalent emptyDataset "mol2" [energyOneHartree]
      molTwo rfl rfl).2.2.1⟩

theorem failed_add_property_leaves_record_unchanged_witness :
    (molAppend.addProperty positionsThreeAtoms none).1 = molAppend :=
  failed_add_property_leaves_record_unchanged molAppend positionsThreeAtoms
    none (.shapeMismatch "mol1" "positions" 3 2) rfl

end Modelforge
